import Mathlib

/-!
# Verification of the contact-submission gateway (`functions/api/contact.js`)

A shallow embedding of the Cloudflare Pages Function that handles contact
form submissions.  Pure helpers of the source become Lean functions; the
handler's network effects (KV reads/writes, the Turnstile verification
call) are recorded in an explicit effect trace; the outcomes of the
environment's calls (current time, timezone offset, verification result,
KV operation failures, random UUID) are inputs of the model.

JavaScript runtime functions used by the source (`parseInt`, `String`,
truthiness, `trim`, `Date` component arithmetic, `toISOString`, the WHATWG
`URL` constructor) are modelled explicitly below, restricted where noted
to the input shapes the gateway can encounter.
-/

namespace Contact

/-- JavaScript numbers as produced by `parseInt` and integer arithmetic:
`none` models `NaN`, `some n` an integer-valued number.  (The source only
ever adds 1 to a parsed integer, so non-integral doubles never arise.) -/
abbrev JSNum := Option Int

/-- `String(n)` on a `parseInt`-produced number. -/
def jsNumToString : JSNum → String
  | none => "NaN"
  | some n => toString n

/-- `x >= k` on a possibly-`NaN` number: any comparison with `NaN` is
false. -/
def jsGe (x : JSNum) (k : Int) : Bool :=
  match x with
  | none => false
  | some n => k ≤ n

/-- JSON values that can appear in a parsed request-body field.
`object` stands for any non-primitive value (array or object), which is
always truthy and never a string. -/
inductive JVal where
  | str (s : String)
  | num (n : Int)
  | bool (b : Bool)
  | null
  | undefined
  | object
deriving DecidableEq, Repr

/-- JavaScript falsiness of a body field value (`!v`). -/
def jsFalsy : JVal → Bool
  | .str s => s = ""
  | .num n => n = 0
  | .bool b => !b
  | .null => true
  | .undefined => true
  | .object => false

/-- `typeof v === 'string'`. -/
def jsIsString : JVal → Bool
  | .str _ => true
  | _ => false

/-- Whitespace removed by `String.prototype.trim` (restricted to the
ASCII whitespace characters; the claims never involve the exotic
Unicode space characters JS also strips). -/
def jsIsSpace (c : Char) : Bool :=
  c == ' ' || c == '\t' || c == '\n' || c == '\r' || c.val == 11 || c.val == 12

/-- `s.trim()`. -/
def jsTrim (s : String) : String :=
  ⟨((s.data.dropWhile jsIsSpace).reverse.dropWhile jsIsSpace).reverse⟩

/-- `typeof v === 'string' ? v.trim() : v` (lines 154-156 of the source). -/
def jvalTrim : JVal → JVal
  | .str s => .str (jsTrim s)
  | v => v

/-- Split a character list at every occurrence of a separator, like
`String.prototype.split` with a single-character separator. -/
def splitChar (sep : Char) : List Char → List (List Char)
  | [] => [[]]
  | c :: cs =>
    let r := splitChar sep cs
    if c == sep then [] :: r
    else
      match r with
      | [] => [[c]]
      | h :: t => (c :: h) :: t

/-- `suffix.isSuffixOf s`, modelling `String.prototype.endsWith`. -/
def jsEndsWith (s suffix : String) : Bool :=
  List.isSuffixOf suffix.data s.data

/-- Lowercasing, as the URL constructor applies to scheme and host. -/
def lowerStr (s : String) : String := ⟨s.data.map Char.toLower⟩

/-- `s.length` of a string field (the only place lengths are used). -/
def jvalLength : JVal → Nat
  | .str s => s.length
  | _ => 0

/-- The string content of a field known to be a string. -/
def jvalStr : JVal → String
  | .str s => s
  | _ => ""

/-- JavaScript `x || d` for a nullable string `x` (used as
`await kv.get(key) || '0'` and in the client-IP fallback chain). -/
def jsOrS (x : Option String) (d : String) : String :=
  match x with
  | none => d
  | some s => if s = "" then d else s

/-- A decimal digit in the sense of `parseInt`. -/
def isDigitChar (c : Char) : Bool := '0' ≤ c && c ≤ '9'

/-- Digits-prefix accumulator for `parseInt`. -/
def takeDigitsAcc : List Char → Option Nat → Option Nat
  | [], acc => acc
  | c :: cs, acc =>
    if isDigitChar c then
      takeDigitsAcc cs (some ((acc.getD 0) * 10 + (c.toNat - '0'.toNat)))
    else acc

/-- Model of `parseInt(s, 10)`: skip leading whitespace, an optional
sign, then the longest prefix of decimal digits; no digits means `NaN`. -/
def parseIntJS (s : String) : JSNum :=
  let cs := s.data.dropWhile jsIsSpace
  match cs with
  | '-' :: rest => (takeDigitsAcc rest none).map (fun n => -(n : Int))
  | '+' :: rest => (takeDigitsAcc rest none).map (fun n => (n : Int))
  | _ => (takeDigitsAcc cs none).map (fun n => (n : Int))

/-! ## Rate-limit hour bucket (lines 104-111)

The source builds
`new Date(now.getFullYear(), now.getMonth(), now.getDate(), now.getHours()).getTime()`.
All four getters and the 4-argument `Date` constructor work in the
runtime's local timezone.  We model a runtime whose local clock is the
UTC epoch clock shifted by `offMs` milliseconds (Cloudflare's runtime has
`offMs = 0`).  Decomposing local time `lm` into calendar fields and
re-composing year/month/day with the hour yields the start of the local
calendar day containing `lm` plus `getHours lm` hours; converting that
local instant back to an epoch timestamp subtracts the offset again. -/

/-- `getHours()` of a local-clock instant `lm` (milliseconds). -/
def dateGetHours (lm : Int) : Int := (lm / 3600000) % 24

/-- Epoch-of-local-midnight for the local calendar day containing `lm`:
the year/month/date fields of `lm` re-composed with zero time-of-day. -/
def localDayStart (lm : Int) : Int := 86400000 * (lm / 86400000)

/-- `new Date(y, mo, d, h).getTime()` for fields read off the current
time: start of the current local day, plus the current local hour,
mapped back from the local clock to the epoch clock. -/
def hourTimestamp (nowMs : Nat) (offMs : Int) : Int :=
  let lm : Int := (nowMs : Int) + offMs
  localDayStart lm + 3600000 * dateGetHours lm - offMs

/-- Rate-limit KV key `ratelimit_{ip}_{hourTimestamp}` (line 111). -/
def rlKey (ip : String) (nowMs : Nat) (offMs : Int) : String :=
  "ratelimit_" ++ ip ++ "_" ++ toString (hourTimestamp nowMs offMs)

/-- `RATE_LIMIT.MAX_REQUESTS`. -/
def MAX_REQUESTS : Int := 5
/-- `RATE_LIMIT.WINDOW_HOURS`. -/
def WINDOW_HOURS : Nat := 1

/-- Result of `checkRateLimit`. -/
structure RLResult where
  allowed : Bool
  remaining : JSNum
deriving DecidableEq, Repr

/-- A stored contact submission, as the JSON object serialized on
line 266 (JSON serialization round-trips these four string fields). -/
structure ContactRecord where
  name : String
  email : String
  message : String
  submittedAt : String
deriving DecidableEq, Repr

/-- Observable external effects of a request, in execution order. -/
inductive Eff where
  /-- `kv.get(key)` on the rate-limit counter (line 113). -/
  | kvGet (key : String)
  /-- `kv.put(key, value, {expirationTtl})` on the counter (line 119). -/
  | kvPut (key value : String) (ttl : Nat)
  /-- The `fetch` to the Turnstile siteverify endpoint (lines 169-180),
  with the JSON body fields it carries. -/
  | fetchTurnstile (secret : String) (response : JVal) (remoteip : Option String)
  /-- `CONTACT_SUBMISSIONS.put(key, value)` for a submission (line 274). -/
  | putContact (key : String) (record : ContactRecord)
deriving DecidableEq, Repr

/-- Contents of the `CONTACT_SUBMISSIONS` KV namespace, as a map. -/
def KVData := String → Option String

/-- `checkRateLimit(kv, ip)` (lines 101-124).  `getFails` / `putFails`
give the outcome of the respective KV calls (`true` = the promise
rejects, propagating an exception, modelled as `Except.error`); a failed
`put` is not recorded as a write.  The trace holds the effects issued. -/
def checkRateLimit (kv : Option KVData) (ip : String) (nowMs : Nat) (offMs : Int)
    (getFails putFails : Bool) : Except Unit RLResult × List Eff :=
  match kv with
  | none => (.ok ⟨true, some MAX_REQUESTS⟩, [])
  | some data =>
    let key := rlKey ip nowMs offMs
    if getFails then (.error (), [.kvGet key])
    else
      let currentCount := parseIntJS (jsOrS (data key) "0")
      if jsGe currentCount MAX_REQUESTS then
        (.ok ⟨false, some 0⟩, [.kvGet key])
      else if putFails then (.error (), [.kvGet key])
      else
        let newCount : JSNum := currentCount.map (· + 1)
        (.ok ⟨true, currentCount.map (fun c => MAX_REQUESTS - c - 1)⟩,
          [.kvGet key, .kvPut key (jsNumToString newCount) (WINDOW_HOURS * 3600)])

/-! ## Origin policy (lines 30-71) -/

/-- The components of a parsed URL that `isAllowedOrigin` inspects.
`protocol` carries the trailing colon, as `URL.protocol` does. -/
structure URLRec where
  protocol : String
  hostname : String
  port : String
deriving DecidableEq, Repr

/-- First character of a URL scheme. -/
def isSchemeStart (c : Char) : Bool := c.isAlpha

/-- Subsequent characters of a URL scheme. -/
def isSchemeChar (c : Char) : Bool := c.isAlphanum || c == '+' || c == '-' || c == '.'

/-- Model of the WHATWG `URL` constructor (`new URL(origin)`), restricted
to the `scheme://host[:port]` shapes an `Origin` header can take:
inputs without a `://`, with an empty host, with an IPv6 bracket host or
with an invalid port are modelled as parse failures (the constructor
throwing, or producing a URL with an empty hostname — either way
`isAllowedOrigin` rejects).  Scheme and host are lowercased as the
constructor does; credentials before an `@` are dropped. -/
def parseURL (s : String) : Option URLRec :=
  let cs := s.data
  let scheme := cs.takeWhile (fun c => c != ':')
  if scheme.isEmpty then none
  else if !(isSchemeStart (scheme.headD ' ') && scheme.all isSchemeChar) then none
  else
    match cs.drop scheme.length with
    | ':' :: '/' :: '/' :: tail =>
      let authority := tail.takeWhile (fun c => c != '/' && c != '?' && c != '#')
      let hostport := ((authority.reverse.takeWhile (fun c => c != '@')).reverse)
      if hostport.any (fun c => c == '[' || c == ']') then none
      else
        match splitChar ':' hostport with
        | [host] =>
          if host.isEmpty then none
          else some ⟨lowerStr ⟨scheme⟩ ++ ":", lowerStr ⟨host⟩, ""⟩
        | [host, port] =>
          if host.isEmpty then none
          else if port.isEmpty then some ⟨lowerStr ⟨scheme⟩ ++ ":", lowerStr ⟨host⟩, ""⟩
          else if !(port.all isDigitChar) then none
          else
            match takeDigitsAcc port none with
            | some n =>
              if n ≤ 65535 then some ⟨lowerStr ⟨scheme⟩ ++ ":", lowerStr ⟨host⟩, ⟨port⟩⟩
              else none
            | none => none
        | _ => none
    | _ => none

/-- `DEFAULT_ORIGIN` (line 30). -/
def DEFAULT_ORIGIN : String := "https://twistan.com"

/-- `isAllowedOrigin(origin)` (lines 42-53): any URL whose hostname is
`localhost`; any `https:` URL whose hostname ends with `twistan.com`;
any `https:` URL whose hostname ends with `.pages.dev`.  A missing or
unparseable origin is rejected. -/
def isAllowedOrigin : Option String → Bool
  | none => false
  | some origin =>
    if origin = "" then false
    else
      match parseURL origin with
      | none => false
      | some url =>
        if url.hostname = "localhost" then true
        else if url.protocol = "https:" && jsEndsWith url.hostname "twistan.com" then true
        else if url.protocol = "https:" && jsEndsWith url.hostname ".pages.dev" then true
        else false

/-- The `Access-Control-Allow-Origin` value of `getCorsHeaders`
(lines 64-71): reflect an allowed origin, otherwise the production
origin.  (The other two headers are the constants
`Content-Type: application/json` and `Vary: Origin`.) -/
def corsAllowOrigin (origin : Option String) : String :=
  if isAllowedOrigin origin then origin.getD DEFAULT_ORIGIN else DEFAULT_ORIGIN

/-- The three origin shapes named by the specification's origin rule,
transcribed from its words over the same URL model: `http://localhost`
with any port, any `https://*.<production-domain>` host, and any
`https://*.pages.dev` host. -/
def specAllowedOriginShape (origin : String) : Bool :=
  match parseURL origin with
  | none => false
  | some url =>
    (url.protocol = "http:" && url.hostname = "localhost")
    || (url.protocol = "https:" &&
        (url.hostname = "twistan.com" || jsEndsWith url.hostname ".twistan.com"))
    || (url.protocol = "https:" && jsEndsWith url.hostname ".pages.dev")

/-! ## `Date.prototype.toISOString` (line 264)

The ISO string is always computed in UTC, whatever the runtime's local
timezone.  Calendar decomposition follows the standard civil-from-days
algorithm. -/

/-- Zero-pad to 2 digits. -/
def pad2 (n : Nat) : String := if n < 10 then "0" ++ toString n else toString n

/-- Zero-pad to 3 digits. -/
def pad3 (n : Nat) : String :=
  if n < 10 then "00" ++ toString n else if n < 100 then "0" ++ toString n else toString n

/-- Zero-pad to 4 digits. -/
def pad4 (n : Nat) : String :=
  if n < 10 then "000" ++ toString n
  else if n < 100 then "00" ++ toString n
  else if n < 1000 then "0" ++ toString n
  else toString n

/-- Gregorian (year, month, day) of a day count since 1970-01-01. -/
def civilFromDays (z : Nat) : Nat × Nat × Nat :=
  let z' := z + 719468
  let era := z' / 146097
  let doe := z' % 146097
  let yoe := (doe - doe / 1460 + doe / 36524 - doe / 146097) / 365
  let y := yoe + era * 400
  let doy := doe - (365 * yoe + yoe / 4 - yoe / 100)
  let mp := (5 * doy + 2) / 153
  let d := doy - (153 * mp + 2) / 5 + 1
  let m := if mp < 10 then mp + 3 else mp - 9
  (if m ≤ 2 then y + 1 else y, m, d)

/-- `new Date(ms).toISOString()` for a nonnegative epoch timestamp. -/
def toISOString (ms : Nat) : String :=
  let days := ms / 86400000
  let rem := ms % 86400000
  let ymd := civilFromDays days
  pad4 ymd.1 ++ "-" ++ pad2 ymd.2.1 ++ "-" ++ pad2 ymd.2.2 ++ "T" ++
    pad2 (rem / 3600000) ++ ":" ++ pad2 (rem % 3600000 / 60000) ++ ":" ++
    pad2 (rem % 60000 / 1000) ++ "." ++ pad3 (rem % 1000) ++ "Z"

/-! ## Field validation (lines 209-240) -/

/-- `MAX_LENGTHS.name`. -/
def MAX_LENGTHS.name : Nat := 100
/-- `MAX_LENGTHS.email`. -/
def MAX_LENGTHS.email : Nat := 254
/-- `MAX_LENGTHS.message`. -/
def MAX_LENGTHS.message : Nat := 5000

/-- A character matched by `[^\s@]` in the email pattern. -/
def emailAtomChar (c : Char) : Bool := !(jsIsSpace c) && c != '@'

/-- Model of `/^[^\s@]+@[^\s@]+\.[^\s@]+$/.test(email)` (line 235):
exactly one `@`, a nonempty whitespace-free local part, and a
whitespace-free domain containing a `.` with at least one character on
each side. -/
def emailOk (s : String) : Bool :=
  match splitChar '@' s.data with
  | [localPart, domain] =>
    !localPart.isEmpty && localPart.all emailAtomChar &&
    domain.all emailAtomChar &&
    ((domain.drop 1).dropLast).contains '.'
  | _ => false

/-! ## Responses -/

/-- The observable parts of a handler `Response`: status, the JSON body
fields, and the headers the gateway sets.  `Content-Type:
application/json` and `Vary: Origin` are constant on every response and
are left implicit. -/
structure Resp where
  status : Nat
  success : Bool
  error : Option String := none
  message : Option String := none
  retryAfterBody : Option Nat := none
  allowOrigin : String
  hdrRetryAfter : Option String := none
  hdrRlLimit : Option String := none
  hdrRlRemaining : Option String := none
deriving DecidableEq, Repr

/-- Error response body `{success:false, error:<msg>}` with CORS headers. -/
def errResp (status : Nat) (msg : String) (cors : String) : Resp :=
  { status := status, success := false, error := some msg, allowOrigin := cors }

/-- Error message of line 162. -/
def msgCaptchaRequired : String := "Please complete the CAPTCHA verification."
/-- Error message of line 187. -/
def msgCaptchaFailed : String := "CAPTCHA verification failed. Please try again."
/-- Error message of line 194. -/
def msgCaptchaUnavailable : String := "Unable to verify CAPTCHA. Please try again later."
/-- Error message of line 204. -/
def msgServerConfig : String := "Server configuration error."
/-- Error message of line 212. -/
def msgRequired : String := "All fields are required (name, email, message)."
/-- Error message of line 219. -/
def msgTypes : String := "Invalid field types."
/-- Error message of line 229: `` `${field} exceeds ${max} characters.` `` -/
def msgLength (field : String) (max : Nat) : String :=
  field ++ " exceeds " ++ toString max ++ " characters."
/-- Error message of line 237. -/
def msgEmail : String := "Invalid email format."
/-- Error message of line 248. -/
def msgRateLimit : String := "Rate limit exceeded. Please try again later."
/-- Error message of line 293. -/
def msgInternal : String := "Internal server error."
/-- Success message of line 280. -/
def msgReceived : String := "Message received."

/-- The field validation block (lines 209-240), applied to the trimmed
field values: `some r` is the early error return, `none` means valid. -/
def validateFields (name email message : JVal) (cors : String) : Option Resp :=
  if jsFalsy name || jsFalsy email || jsFalsy message then
    some (errResp 400 msgRequired cors)
  else if !(jsIsString name && jsIsString email && jsIsString message) then
    some (errResp 400 msgTypes cors)
  else if jvalLength name > MAX_LENGTHS.name then
    some (errResp 400 (msgLength "name" MAX_LENGTHS.name) cors)
  else if jvalLength email > MAX_LENGTHS.email then
    some (errResp 400 (msgLength "email" MAX_LENGTHS.email) cors)
  else if jvalLength message > MAX_LENGTHS.message then
    some (errResp 400 (msgLength "message" MAX_LENGTHS.message) cors)
  else if !emailOk (jvalStr email) then
    some (errResp 400 msgEmail cors)
  else none

/-! ## The POST handler (lines 143-297) -/

/-- The request headers the handler reads. -/
structure Headers where
  origin : Option String := none
  cfConnectingIP : Option String := none
  xForwardedFor : Option String := none
deriving DecidableEq, Repr

/-- The parsed JSON body fields the handler reads; an absent key is
`undefined`. -/
structure ContactBody where
  name : JVal := .undefined
  email : JVal := .undefined
  message : JVal := .undefined
  turnstileResponse : JVal := .undefined
deriving DecidableEq, Repr

/-- A request: headers plus the result of `request.json()` (`none` when
the body is malformed and parsing throws). -/
structure Req where
  headers : Headers
  body : Option ContactBody
deriving Repr

/-- The environment bindings the handler reads. -/
structure Env where
  contactSubmissions : Option KVData := none
  turnstileSecretKey : Option String := none
  skipCaptcha : Option String := none

/-- Outcomes of the nondeterministic calls a single request makes:
both `new Date()` readings, the runtime's timezone offset, the random
UUID, the Turnstile verification result (`none` = the `fetch` or its
`.json()` rejects), and whether each KV operation's promise rejects. -/
structure World where
  nowMs : Nat := 0
  tzOffsetMs : Int := 0
  storeNowMs : Nat := 0
  uuid : String := ""
  turnstileResult : Option Bool := some true
  kvGetFails : Bool := false
  rlPutFails : Bool := false
  subPutFails : Bool := false

/-- Truthiness of an optional environment string. -/
def jsTruthyS (o : Option String) : Bool :=
  match o with
  | none => false
  | some s => s != ""

/-- `headers.get('CF-Connecting-IP') ||
headers.get('X-Forwarded-For')?.split(',')[0] || 'unknown'`
(lines 147-150). -/
def splitFirst (s : String) : String := ⟨s.data.takeWhile (fun c => c != ',')⟩

/-- The client identity used for rate limiting and logging. -/
def clientIPOf (h : Headers) : String :=
  jsOrS h.cfConnectingIP (jsOrS (h.xForwardedFor.map splitFirst) "unknown")

/-- The CAPTCHA stage (lines 167-207): `some r` is an early return,
`none` means verification passed or was skipped.  The trace records the
`fetch` to the verification service when one is issued. -/
def verifyCaptcha (env : Env) (w : World) (token : JVal) (remoteip : Option String)
    (cors : String) : Option Resp × List Eff :=
  if jsTruthyS env.turnstileSecretKey then
    let tr := [Eff.fetchTurnstile (env.turnstileSecretKey.getD "") token remoteip]
    match w.turnstileResult with
    | none => (some (errResp 503 msgCaptchaUnavailable cors), tr)
    | some false => (some (errResp 400 msgCaptchaFailed cors), tr)
    | some true => (none, tr)
  else if env.skipCaptcha = some "true" then (none, [])
  else (some (errResp 503 msgServerConfig cors), [])

/-- The 429 response (lines 244-261). -/
def resp429 (cors : String) : Resp :=
  { status := 429, success := false, error := some msgRateLimit,
    retryAfterBody := some (WINDOW_HOURS * 3600),
    allowOrigin := cors,
    hdrRetryAfter := some (toString (WINDOW_HOURS * 3600)),
    hdrRlLimit := some (toString MAX_REQUESTS),
    hdrRlRemaining := some "0" }

/-- The 200 response (lines 279-289). -/
def resp200 (remaining : JSNum) (cors : String) : Resp :=
  { status := 200, success := true, message := some msgReceived,
    allowOrigin := cors,
    hdrRlLimit := some (toString MAX_REQUESTS),
    hdrRlRemaining := some (jsNumToString remaining) }

/-- Submission key `` `contact_${timestamp}_${crypto.randomUUID()}` ``
(line 265). -/
def contactKey (ts uuid : String) : String := "contact_" ++ ts ++ "_" ++ uuid

/-- The body of the `try` block of `onRequestPost` once the body has
parsed (lines 147-289), plus the top-level catch (lines 290-296): a KV
exception from the rate limiter or the submission `put` becomes the 500
response. -/
def handleWithBody (h : Headers) (env : Env) (w : World) (b : ContactBody) :
    Resp × List Eff :=
  let cors := corsAllowOrigin h.origin
  let clientIP := clientIPOf h
  let name := jvalTrim b.name
  let email := jvalTrim b.email
  let message := jvalTrim b.message
  if jsFalsy b.turnstileResponse then
    (errResp 400 msgCaptchaRequired cors, [])
  else
    match verifyCaptcha env w b.turnstileResponse h.cfConnectingIP cors with
    | (some r, tr) => (r, tr)
    | (none, tr) =>
      match validateFields name email message cors with
      | some r => (r, tr)
      | none =>
        match checkRateLimit env.contactSubmissions clientIP w.nowMs w.tzOffsetMs
            w.kvGetFails w.rlPutFails with
        | (.error _, tr2) => (errResp 500 msgInternal cors, tr ++ tr2)
        | (.ok rl, tr2) =>
          if !rl.allowed then (resp429 cors, tr ++ tr2)
          else
            let ts := toISOString w.storeNowMs
            let key := contactKey ts w.uuid
            let record : ContactRecord := ⟨jvalStr name, jvalStr email, jvalStr message, ts⟩
            match env.contactSubmissions with
            | some _ =>
              if w.subPutFails then (errResp 500 msgInternal cors, tr ++ tr2)
              else (resp200 rl.remaining cors, tr ++ tr2 ++ [.putContact key record])
            | none => (resp200 rl.remaining cors, tr ++ tr2)

/-- `onRequestPost(context)` (lines 143-297): a malformed body throws in
`request.json()` and is caught by the top-level catch. -/
def onRequestPost (req : Req) (env : Env) (w : World) : Resp × List Eff :=
  match req.body with
  | none => (errResp 500 msgInternal (corsAllowOrigin req.headers.origin), [])
  | some b => handleWithBody req.headers env w b

/-- An effect touching the rate-limit counter (a KV `get` or a KV `put`
with a TTL; every such key in the model is a `ratelimit_` key). -/
def Eff.touchesCounter : Eff → Bool
  | .kvGet _ => true
  | .kvPut _ _ _ => true
  | _ => false

/-- A submission-store write (a `contact_`-keyed `put`). -/
def Eff.isContactPut : Eff → Bool
  | .putContact _ _ => true
  | _ => false

/-- The Bot Verifier stage rejects the request: the token is missing or
falsy, verification fails or is unavailable, or no secret is configured
and the skip flag is not exactly `'true'`. -/
def botVerifierRejects (env : Env) (w : World) (b : ContactBody) : Prop :=
  jsFalsy b.turnstileResponse = true
  ∨ (jsTruthyS env.turnstileSecretKey = true ∧ w.turnstileResult ≠ some true)
  ∨ (jsTruthyS env.turnstileSecretKey = false ∧ env.skipCaptcha ≠ some "true")

/-- The Field Validator stage rejects the (trimmed) fields. -/
def fieldValidatorRejects (b : ContactBody) (cors : String) : Prop :=
  validateFields (jvalTrim b.name) (jvalTrim b.email) (jvalTrim b.message) cors ≠ none

/-! ## Helper lemmas -/

/-- A configured secret and a successful verification pass the CAPTCHA
stage, with exactly one call to the verification service. -/
theorem verifyCaptcha_pass (env : Env) (w : World) (token : JVal) (remoteip : Option String)
    (cors : String) (hsec : jsTruthyS env.turnstileSecretKey = true)
    (hts : w.turnstileResult = some true) :
    verifyCaptcha env w token remoteip cors =
      (none, [.fetchTurnstile (env.turnstileSecretKey.getD "") token remoteip]) := by
  simp [verifyCaptcha, hsec, hts]

/-- A stored count that parses to `c` makes `checkRateLimit` read `c`. -/
theorem checkRateLimit_eval (data : KVData) (ip : String) (nowMs : Nat) (offMs : Int)
    (s : String) (c : Int)
    (hs : data (rlKey ip nowMs offMs) = some s) (hc : parseIntJS s = some c) :
    checkRateLimit (some data) ip nowMs offMs false false =
      (if 5 ≤ c then (.ok ⟨false, some 0⟩, [.kvGet (rlKey ip nowMs offMs)])
       else (.ok ⟨true, some (5 - c - 1)⟩,
        [.kvGet (rlKey ip nowMs offMs),
         .kvPut (rlKey ip nowMs offMs) (toString (c + 1)) 3600])) := by
  have hsne : s ≠ "" := by
    intro h
    subst h
    have hempty : parseIntJS "" = (none : JSNum) := by decide
    rw [hempty] at hc
    exact Option.noConfusion hc
  have hjs : jsOrS (data (rlKey ip nowMs offMs)) "0" = s := by
    rw [hs]; simp [jsOrS, hsne]
  simp only [checkRateLimit, Bool.false_eq_true, if_false, hjs, hc, jsGe, MAX_REQUESTS,
    WINDOW_HOURS, Option.map_some]
  by_cases h5 : 5 ≤ c
  · simp [h5, jsNumToString]
  · simp [h5, jsNumToString]

/-- Every effect of the CAPTCHA stage is a call to the verification
service, carrying the token and `remoteip` it was given. -/
theorem verifyCaptcha_trace_fetch (env : Env) (w : World) (token : JVal)
    (rip : Option String) (cors : String) :
    ∀ e ∈ (verifyCaptcha env w token rip cors).2,
      ∃ sec, e = .fetchTurnstile sec token rip := by
  unfold verifyCaptcha
  by_cases h : jsTruthyS env.turnstileSecretKey
  · rcases hts : w.turnstileResult with _ | bb
    · simp [h, hts]
    · cases bb <;> simp [h, hts]
  · by_cases hskip : env.skipCaptcha = some "true" <;> simp [h, hskip]

/-- If the CAPTCHA stage falls through, either the secret was set and
verification succeeded, or the secret was unset and the skip flag was
exactly `'true'`. -/
theorem verifyCaptcha_none_inv (env : Env) (w : World) (token : JVal)
    (rip : Option String) (cors : String) (tr : List Eff)
    (h : verifyCaptcha env w token rip cors = (none, tr)) :
    (jsTruthyS env.turnstileSecretKey = true ∧ w.turnstileResult = some true) ∨
    (jsTruthyS env.turnstileSecretKey = false ∧ env.skipCaptcha = some "true") := by
  unfold verifyCaptcha at h
  by_cases hsec : jsTruthyS env.turnstileSecretKey
  · left
    refine ⟨hsec, ?_⟩
    rw [if_pos hsec] at h
    rcases hts : w.turnstileResult with _ | bb
    · rw [hts] at h; simp at h
    · cases bb
      · rw [hts] at h; simp at h
      · rfl
  · right
    refine ⟨by simp [hsec], ?_⟩
    rw [if_neg hsec] at h
    by_cases hskip : env.skipCaptcha = some "true"
    · exact hskip
    · rw [if_neg hskip] at h; simp at h

/-- Rejections of the CAPTCHA stage carry status 400 or 503. -/
theorem verifyCaptcha_some_status (env : Env) (w : World) (token : JVal)
    (rip : Option String) (cors : String) (r : Resp) (tr : List Eff)
    (h : verifyCaptcha env w token rip cors = (some r, tr)) :
    r.status = 400 ∨ r.status = 503 := by
  unfold verifyCaptcha at h
  by_cases hsec : jsTruthyS env.turnstileSecretKey
  · rw [if_pos hsec] at h
    rcases hts : w.turnstileResult with _ | bb
    · rw [hts] at h
      simp only [Prod.mk.injEq, Option.some.injEq] at h
      right; rw [← h.1]; rfl
    · cases bb
      · rw [hts] at h
        simp only [Prod.mk.injEq, Option.some.injEq] at h
        left; rw [← h.1]; rfl
      · rw [hts] at h; simp at h
  · rw [if_neg hsec] at h
    by_cases hskip : env.skipCaptcha = some "true"
    · rw [if_pos hskip] at h; simp at h
    · rw [if_neg hskip] at h
      simp only [Prod.mk.injEq, Option.some.injEq] at h
      right; rw [← h.1]; rfl

/-- Rejections of the validation stage carry status 400. -/
theorem validateFields_some_status (n e m : JVal) (c : String) (r : Resp)
    (h : validateFields n e m c = some r) : r.status = 400 := by
  unfold validateFields at h
  split_ifs at h <;>
    first
      | exact Option.noConfusion h
      | (injection h with h; rw [← h]; rfl)

/-- Fields that pass validation are strings. -/
theorem validateFields_none_strings (n e m : JVal) (c : String)
    (h : validateFields n e m c = none) :
    (∃ s, n = .str s) ∧ (∃ s, e = .str s) ∧ (∃ s, m = .str s) := by
  unfold validateFields at h
  split_ifs at h with h1 h2 h3 h4 h5 h6
  simp only [Bool.not_eq_true', Bool.not_eq_false, Bool.and_eq_true] at h2
  obtain ⟨⟨hn, he⟩, hm⟩ := h2
  refine ⟨?_, ?_, ?_⟩
  · cases n <;> simp_all [jsIsString]
  · cases e <;> simp_all [jsIsString]
  · cases m <;> simp_all [jsIsString]

/-- A trimmed value that is a string came from a string. -/
theorem jvalTrim_str_inv (v : JVal) (t : String) (h : jvalTrim v = .str t) :
    ∃ s, v = .str s ∧ t = jsTrim s := by
  cases v <;> simp_all [jvalTrim]

/-- A failed counter read propagates as an exception. -/
theorem checkRateLimit_getFails (data : KVData) (ip : String) (nowMs : Nat) (offMs : Int)
    (pF : Bool) :
    checkRateLimit (some data) ip nowMs offMs true pF =
      (.error (), [.kvGet (rlKey ip nowMs offMs)]) := by
  simp [checkRateLimit]

/-- An absent binding short-circuits the limiter with no effects. -/
theorem checkRateLimit_noBinding (ip : String) (nowMs : Nat) (offMs : Int) (gF pF : Bool) :
    checkRateLimit none ip nowMs offMs gF pF = (.ok ⟨true, some MAX_REQUESTS⟩, []) := rfl

/-- When the stored count is below the limit a write-back is attempted;
if that `put` rejects, the exception propagates. -/
theorem checkRateLimit_putFails (data : KVData) (ip : String) (nowMs : Nat) (offMs : Int)
    (hlt : jsGe (parseIntJS (jsOrS (data (rlKey ip nowMs offMs)) "0")) MAX_REQUESTS = false) :
    checkRateLimit (some data) ip nowMs offMs false true =
      (.error (), [.kvGet (rlKey ip nowMs offMs)]) := by
  simp [checkRateLimit, hlt]

/-- Every effect of the rate limiter touches the counter — in
particular none is a submission write and none is a verification call. -/
theorem checkRateLimit_trace_counter (kv : Option KVData) (ip : String) (nowMs : Nat)
    (offMs : Int) (gF pF : Bool) :
    ∀ e ∈ (checkRateLimit kv ip nowMs offMs gF pF).2, Eff.touchesCounter e = true := by
  unfold checkRateLimit
  rcases kv with _ | data
  · simp
  · by_cases hg : gF = true
    · simp [hg, Eff.touchesCounter]
    · simp only [Bool.not_eq_true] at hg
      simp only [hg, Bool.false_eq_true, if_false]
      split_ifs <;> simp [Eff.touchesCounter]

/-- Counter effects are neither submission writes nor verification
calls. -/
theorem touchesCounter_cases (e : Eff) (h : Eff.touchesCounter e = true) :
    Eff.isContactPut e = false ∧ ∀ sec tok r, e ≠ .fetchTurnstile sec tok r := by
  cases e <;> simp_all [Eff.touchesCounter, Eff.isContactPut]

/-- Inversion of a 200 response when a store binding is present: every
stage passed, the submission write did not fail, and the trace ends
with exactly the submission write of the trimmed fields keyed by the
ISO timestamp and the UUID. -/
theorem handle_success_inv (hdr : Headers) (env : Env) (w : World) (b : ContactBody)
    (data : KVData) (henv : env.contactSubmissions = some data)
    (h200 : (handleWithBody hdr env w b).1.status = 200) :
    jsFalsy b.turnstileResponse = false ∧
    w.subPutFails = false ∧
    ∃ tr tr2 rl,
      verifyCaptcha env w b.turnstileResponse hdr.cfConnectingIP
          (corsAllowOrigin hdr.origin) = (none, tr) ∧
      validateFields (jvalTrim b.name) (jvalTrim b.email) (jvalTrim b.message)
          (corsAllowOrigin hdr.origin) = none ∧
      checkRateLimit (some data) (clientIPOf hdr) w.nowMs w.tzOffsetMs
          w.kvGetFails w.rlPutFails = (.ok rl, tr2) ∧
      rl.allowed = true ∧
      (handleWithBody hdr env w b).2 =
        tr ++ tr2 ++
          [.putContact (contactKey (toISOString w.storeNowMs) w.uuid)
            ⟨jvalStr (jvalTrim b.name), jvalStr (jvalTrim b.email),
             jvalStr (jvalTrim b.message), toISOString w.storeNowMs⟩] := by
  cases htok : jsFalsy b.turnstileResponse with
  | true =>
    exfalso
    simp only [handleWithBody, htok] at h200
    simp [errResp] at h200
  | false =>
    rcases hvc : verifyCaptcha env w b.turnstileResponse hdr.cfConnectingIP
        (corsAllowOrigin hdr.origin) with ⟨vr, tr⟩
    cases vr with
    | some r =>
      exfalso
      simp only [handleWithBody, htok, Bool.false_eq_true, if_false, hvc] at h200
      rcases verifyCaptcha_some_status env w b.turnstileResponse hdr.cfConnectingIP
          (corsAllowOrigin hdr.origin) r tr hvc with h4 | h5
      · omega
      · omega
    | none =>
      rcases hv : validateFields (jvalTrim b.name) (jvalTrim b.email) (jvalTrim b.message)
          (corsAllowOrigin hdr.origin) with _ | r
      · rcases hcr : checkRateLimit (some data) (clientIPOf hdr) w.nowMs
            w.tzOffsetMs w.kvGetFails w.rlPutFails with ⟨res, tr2⟩
        cases res with
        | error u =>
          exfalso
          simp only [handleWithBody, htok, Bool.false_eq_true, if_false, hvc, hv, henv,
            hcr] at h200
          simp [errResp] at h200
        | ok rl =>
          cases hall : rl.allowed with
          | false =>
            exfalso
            simp only [handleWithBody, htok, Bool.false_eq_true, if_false, hvc, hv, henv, hcr,
              hall, Bool.not_false, if_true] at h200
            simp [resp429] at h200
          | true =>
            cases hsp : w.subPutFails with
            | true =>
              exfalso
              simp only [handleWithBody, htok, Bool.false_eq_true, if_false, hvc, hv, henv, hcr,
                hall, Bool.not_true, hsp, if_true] at h200
              simp [errResp] at h200
            | false =>
              refine ⟨rfl, rfl, tr, tr2, rl, rfl, rfl, rfl, hall, ?_⟩
              simp only [handleWithBody, htok, Bool.false_eq_true, if_false, hvc, hv, henv, hcr,
                hall, Bool.not_true, hsp]
      · exfalso
        simp only [handleWithBody, htok, Bool.false_eq_true, if_false, hvc, hv] at h200
        have hvs := validateFields_some_status _ _ _ _ _ hv
        omega

/-! ## Claims -/

/-- C1: for a stored bucket count `c` at the client's `(IP, hour)` key:
if `c ≥ 5` the limiter returns not-allowed with `remaining = 0` and
writes nothing, and a fully verified, validated request is answered 429
with `X-RateLimit-Remaining: 0`; if `c < 5` it writes back `c + 1` with
TTL 3600 s and returns allowed with `remaining = 5 - c - 1`. -/
theorem rate_limit_bucket_spec (data : KVData) (ip : String) (nowMs : Nat) (offMs : Int)
    (s : String) (c : Int) (hdr : Headers) (env : Env) (w : World) (b : ContactBody)
    (hs : data (rlKey ip nowMs offMs) = some s)
    (hc : parseIntJS s = some c)
    (henv : env.contactSubmissions = some data)
    (hgf : w.kvGetFails = false) (hpf : w.rlPutFails = false)
    (hnw : w.nowMs = nowMs) (hoff : w.tzOffsetMs = offMs)
    (hip : clientIPOf hdr = ip)
    (htok : jsFalsy b.turnstileResponse = false)
    (hsec : jsTruthyS env.turnstileSecretKey = true)
    (hts : w.turnstileResult = some true)
    (hval : validateFields (jvalTrim b.name) (jvalTrim b.email) (jvalTrim b.message)
              (corsAllowOrigin hdr.origin) = none) :
    (5 ≤ c →
      checkRateLimit (some data) ip nowMs offMs false false =
          (.ok ⟨false, some 0⟩, [.kvGet (rlKey ip nowMs offMs)]) ∧
      (onRequestPost ⟨hdr, some b⟩ env w).1.status = 429 ∧
      (onRequestPost ⟨hdr, some b⟩ env w).1.hdrRlRemaining = some "0") ∧
    (c < 5 →
      checkRateLimit (some data) ip nowMs offMs false false =
        (.ok ⟨true, some (5 - c - 1)⟩,
          [.kvGet (rlKey ip nowMs offMs),
           .kvPut (rlKey ip nowMs offMs) (toString (c + 1)) 3600])) := by
  have heval := checkRateLimit_eval data ip nowMs offMs s c hs hc
  constructor
  · intro h5
    have hchk : checkRateLimit (some data) ip nowMs offMs false false =
        (.ok ⟨false, some 0⟩, [.kvGet (rlKey ip nowMs offMs)]) := by
      rw [heval, if_pos h5]
    refine ⟨hchk, ?_⟩
    have hvp := verifyCaptcha_pass env w b.turnstileResponse hdr.cfConnectingIP
      (corsAllowOrigin hdr.origin) hsec hts
    simp only [onRequestPost, handleWithBody, htok, Bool.false_eq_true, if_false, hvp, hval,
      hip, hnw, hoff, henv, hgf, hpf, hchk]
    simp [resp429]
  · intro h5
    rw [heval, if_neg (by omega)]

/-- Witness for `rate_limit_bucket_spec`: with a stored count of 5 the
handler answers 429; with a stored count of 4 the limiter allows,
reports `remaining = 0` and writes back `"5"`. -/
theorem rate_limit_bucket_spec_witness :
    (onRequestPost
        ⟨⟨none, some "1.2.3.4", none⟩,
         some ⟨.str "Ada", .str "ada@example.com", .str "Hi", .str "tok"⟩⟩
        ⟨some (fun _ => some "5"), some "sek", none⟩ {}).1.status = 429 ∧
    checkRateLimit (some (fun _ => some "4")) "1.2.3.4" 0 0 false false =
      (.ok ⟨true, some (5 - 4 - 1)⟩,
        [.kvGet (rlKey "1.2.3.4" 0 0),
         .kvPut (rlKey "1.2.3.4" 0 0) (toString ((4 : Int) + 1)) 3600]) :=
  ⟨((rate_limit_bucket_spec (fun _ => some "5") "1.2.3.4" 0 0 "5" 5
      ⟨none, some "1.2.3.4", none⟩ ⟨some (fun _ => some "5"), some "sek", none⟩ {}
      ⟨.str "Ada", .str "ada@example.com", .str "Hi", .str "tok"⟩
      rfl (by decide) rfl rfl rfl rfl rfl (by decide) (by decide) rfl rfl
      (by decide)).1 (by norm_num)).2.1,
   (rate_limit_bucket_spec (fun _ => some "4") "1.2.3.4" 0 0 "4" 4
      ⟨none, some "1.2.3.4", none⟩ ⟨some (fun _ => some "4"), some "sek", none⟩ {}
      ⟨.str "Ada", .str "ada@example.com", .str "Hi", .str "tok"⟩
      rfl (by decide) rfl rfl rfl rfl rfl (by decide) (by decide) rfl rfl
      (by decide)).2 (by norm_num)⟩

/-- C2: a request whose parsed body has no `cf-turnstile-response` key
is answered 400 with the "complete the CAPTCHA" error, and the effect
trace is empty — in particular the verification service is never
called. -/
theorem missing_token_rejected_before_fetch (req : Req) (env : Env) (w : World)
    (b : ContactBody) (hb : req.body = some b)
    (htok : b.turnstileResponse = .undefined) :
    (onRequestPost req env w).1.status = 400 ∧
    (onRequestPost req env w).1.error = some msgCaptchaRequired ∧
    (onRequestPost req env w).2 = [] := by
  simp [onRequestPost, hb, handleWithBody, htok, jsFalsy, errResp]

/-- Witness for `missing_token_rejected_before_fetch` at a concrete
request with every field present except the token. -/
theorem missing_token_rejected_before_fetch_witness :
    (onRequestPost
        ⟨⟨some "https://twistan.com", some "1.2.3.4", none⟩,
         some ⟨.str "Ada", .str "ada@example.com", .str "Hi", .undefined⟩⟩
        ⟨some (fun _ => none), some "sek", none⟩ {}).1.status = 400 ∧
    (onRequestPost
        ⟨⟨some "https://twistan.com", some "1.2.3.4", none⟩,
         some ⟨.str "Ada", .str "ada@example.com", .str "Hi", .undefined⟩⟩
        ⟨some (fun _ => none), some "sek", none⟩ {}).1.error = some msgCaptchaRequired ∧
    (onRequestPost
        ⟨⟨some "https://twistan.com", some "1.2.3.4", none⟩,
         some ⟨.str "Ada", .str "ada@example.com", .str "Hi", .undefined⟩⟩
        ⟨some (fun _ => none), some "sek", none⟩ {}).2 = [] :=
  missing_token_rejected_before_fetch _ _ _ _ rfl rfl

/-- C3: a request rejected by the Bot Verifier or the Field Validator
produces no effect touching the rate-limit counter — its `(IP, hour)`
bucket is neither read nor written. -/
theorem failed_checks_never_touch_counter (req : Req) (env : Env) (w : World)
    (b : ContactBody) (hb : req.body = some b)
    (hfail : botVerifierRejects env w b ∨
             fieldValidatorRejects b (corsAllowOrigin req.headers.origin)) :
    ((onRequestPost req env w).2.all fun e => !Eff.touchesCounter e) = true := by
  obtain ⟨hdr, body⟩ := req
  simp only at hb
  subst hb
  rw [List.all_eq_true]
  intro e he
  simp only [onRequestPost] at he
  simp only [Bool.not_eq_true']
  by_cases htok : jsFalsy b.turnstileResponse = true
  · simp only [handleWithBody, htok, if_true] at he
    simp at he
  · rcases hvc : verifyCaptcha env w b.turnstileResponse hdr.cfConnectingIP
        (corsAllowOrigin hdr.origin) with ⟨vr, tr⟩
    have htr : ∀ e' ∈ tr, Eff.touchesCounter e' = false := by
      intro e' he'
      obtain ⟨sec, rfl⟩ :=
        verifyCaptcha_trace_fetch env w b.turnstileResponse hdr.cfConnectingIP
          (corsAllowOrigin hdr.origin) e' (by rw [hvc]; exact he')
      rfl
    cases vr with
    | some r =>
      simp only [handleWithBody, htok, if_false, hvc] at he
      exact htr e he
    | none =>
      rcases hv : validateFields (jvalTrim b.name) (jvalTrim b.email) (jvalTrim b.message)
          (corsAllowOrigin hdr.origin) with _ | r
      · exfalso
        rcases hfail with hbot | hfv
        · rcases hbot with h1 | ⟨hsec, hts⟩ | ⟨hsecf, hskip⟩
          · exact htok h1
          · rcases verifyCaptcha_none_inv env w b.turnstileResponse hdr.cfConnectingIP
                (corsAllowOrigin hdr.origin) tr hvc with ⟨_, hts'⟩ | ⟨hsec', _⟩
            · exact hts hts'
            · rw [hsec] at hsec'; exact Bool.noConfusion hsec'
          · rcases verifyCaptcha_none_inv env w b.turnstileResponse hdr.cfConnectingIP
                (corsAllowOrigin hdr.origin) tr hvc with ⟨hsec', _⟩ | ⟨_, hskip'⟩
            · rw [hsecf] at hsec'; exact Bool.noConfusion hsec'
            · exact hskip hskip'
        · exact hfv hv
      · simp only [handleWithBody, htok, if_false, hvc, hv] at he
        exact htr e he

/-- Witness for `failed_checks_never_touch_counter`: a misconfigured
environment (no secret, no skip flag) rejects a well-formed request
with no counter access although a KV binding is present. -/
theorem failed_checks_never_touch_counter_witness :
    ((onRequestPost
        ⟨⟨none, some "1.2.3.4", none⟩,
         some ⟨.str "Ada", .str "ada@example.com", .str "Hi", .str "tok"⟩⟩
        ⟨some (fun _ => some "0"), none, none⟩ {}).2.all
      fun e => !Eff.touchesCounter e) = true :=
  failed_checks_never_touch_counter _ _ _
    ⟨.str "Ada", .str "ada@example.com", .str "Hi", .str "tok"⟩ rfl
    (Or.inl (Or.inr (Or.inr ⟨by decide, by decide⟩)))

/-- C4 counterexample: `https://eviltwistan.com` (not a production-domain
host) and `https://localhost` (not `http://localhost`) are outside the
three shapes the claim allows, yet the code allows and reflects them. -/
theorem origin_policy_counterexample :
    isAllowedOrigin (some "https://eviltwistan.com") = true ∧
    specAllowedOriginShape "https://eviltwistan.com" = false ∧
    corsAllowOrigin (some "https://eviltwistan.com") = "https://eviltwistan.com" ∧
    isAllowedOrigin (some "https://localhost") = true ∧
    specAllowedOriginShape "https://localhost" = false := by decide

/-- C4 (amended): the code reflects any parseable origin whose hostname
is `localhost` (any scheme), any `https` origin whose hostname ends in
the string `twistan.com`, and any `https` origin whose hostname ends in
`.pages.dev`; everything else — missing or unparseable origins
included — falls back to the production origin, and the reflected value
is never `*`. -/
theorem origin_policy_amended :
    (∀ s u, parseURL s = some u →
      (isAllowedOrigin (some s) = true ↔
        (u.hostname = "localhost" ∨
         (u.protocol = "https:" ∧
           (jsEndsWith u.hostname "twistan.com" = true ∨
            jsEndsWith u.hostname ".pages.dev" = true))))) ∧
    (∀ s, parseURL s = none → isAllowedOrigin (some s) = false) ∧
    isAllowedOrigin none = false ∧
    (∀ o, corsAllowOrigin o ≠ "*") ∧
    (∀ o, isAllowedOrigin o = false → corsAllowOrigin o = DEFAULT_ORIGIN) ∧
    (∀ s, isAllowedOrigin (some s) = true → corsAllowOrigin (some s) = s) := by
  have hrefl : ∀ s, isAllowedOrigin (some s) = true → corsAllowOrigin (some s) = s := by
    intro s h
    simp [corsAllowOrigin, h]
  have hdef : ∀ o, isAllowedOrigin o = false → corsAllowOrigin o = DEFAULT_ORIGIN := by
    intro o h
    simp [corsAllowOrigin, h]
  refine ⟨?_, ?_, rfl, ?_, hdef, hrefl⟩
  · intro s u hp
    have hne : s ≠ "" := by
      intro h
      subst h
      rw [(by decide : parseURL "" = none)] at hp
      exact Option.noConfusion hp
    simp only [isAllowedOrigin, if_neg hne, hp]
    split_ifs with h1 h2 h3 <;> simp_all
  · intro s hp
    by_cases hse : s = "" <;> simp [isAllowedOrigin, hse, hp]
  · intro o
    rcases o with _ | s
    · rw [hdef none rfl]; decide
    · by_cases hall : isAllowedOrigin (some s) = true
      · rw [hrefl s hall]
        intro h
        subst h
        rw [(by decide : isAllowedOrigin (some "*") = false)] at hall
        exact Bool.noConfusion hall
      · rw [hdef (some s) (by simpa using hall)]; decide

/-- Witness for `origin_policy_amended`: a dev localhost origin is
reflected and an unknown origin falls back to the production origin. -/
theorem origin_policy_amended_witness :
    corsAllowOrigin (some "http://localhost:5173") = "http://localhost:5173" ∧
    corsAllowOrigin (some "https://evil.example") = DEFAULT_ORIGIN :=
  ⟨origin_policy_amended.2.2.2.2.2 "http://localhost:5173" (by decide),
   origin_policy_amended.2.2.2.2.1 (some "https://evil.example") (by decide)⟩

/-- C5 counterexample: in a runtime whose local clock is 30 minutes
ahead of UTC, the bucket timestamp at the epoch instant 0 is not the
UTC-hour floor — the computation depends on the local timezone. -/
theorem hour_bucket_counterexample :
    hourTimestamp 0 1800000 ≠ 3600000 * ((0 : Int) / 3600000) ∧
    hourTimestamp 0 1800000 ≠ hourTimestamp 0 0 := by decide

/-- C5 (amended): the bucket floors the current time to the start of
the hour of the runtime's *local* clock.  Whenever the local offset is
a whole number of hours — in particular offset 0, the Cloudflare
runtime — this coincides with flooring to the UTC hour, and a request
1 ms before or after an hour boundary lands in exactly the adjacent,
respectively the starting, bucket. -/
theorem hour_bucket_amended (nowMs : Nat) (k : Int) (m : Nat) :
    hourTimestamp nowMs (3600000 * k) = 3600000 * ((nowMs : Int) / 3600000) ∧
    hourTimestamp (3600000 * m) 0 = 3600000 * m ∧
    hourTimestamp (3600000 * m + 1) 0 = 3600000 * m ∧
    (0 < m → hourTimestamp (3600000 * m - 1) 0 = 3600000 * (m : Int) - 3600000) := by
  unfold hourTimestamp localDayStart dateGetHours
  refine ⟨?_, ?_, ?_, fun hm => ?_⟩ <;> push_cast <;> omega

/-- C6 counterexample: a fully verified and validated request whose
rate-limit counter read rejects is answered 500 and never reaches
storage — the limiter does not fail open on a read/write failure of the
bound store. -/
theorem rate_limit_fail_open_counterexample :
    (onRequestPost
        ⟨⟨none, some "1.2.3.4", none⟩,
         some ⟨.str "Ada", .str "ada@example.com", .str "Hi", .str "tok"⟩⟩
        ⟨some (fun _ => none), some "sek", none⟩
        ⟨0, 0, 0, "u-1", some true, true, false, false⟩).1.status = 500 ∧
    ((onRequestPost
        ⟨⟨none, some "1.2.3.4", none⟩,
         some ⟨.str "Ada", .str "ada@example.com", .str "Hi", .str "tok"⟩⟩
        ⟨some (fun _ => none), some "sek", none⟩
        ⟨0, 0, 0, "u-1", some true, true, false, false⟩).2.all
      fun e => !Eff.isContactPut e) = true := by decide

/-- C6 (amended): the limiter fails open only when the store *binding*
is absent — then it allows with `remaining = 5`, no effects, and a
verified, validated request is answered 200.  When a binding is present
but its counter read rejects — or the count is below the limit and the
write-back rejects — the exception reaches the top-level catch and the
request is answered 500. -/
theorem rate_limit_fail_open_amended :
    (∀ (ip : String) (nowMs : Nat) (offMs : Int) (gF pF : Bool),
      checkRateLimit none ip nowMs offMs gF pF = (.ok ⟨true, some 5⟩, [])) ∧
    (∀ (req : Req) (env : Env) (w : World) (b : ContactBody) (data : KVData),
      req.body = some b → env.contactSubmissions = some data →
      w.kvGetFails = true →
      jsFalsy b.turnstileResponse = false →
      jsTruthyS env.turnstileSecretKey = true → w.turnstileResult = some true →
      validateFields (jvalTrim b.name) (jvalTrim b.email) (jvalTrim b.message)
        (corsAllowOrigin req.headers.origin) = none →
      (onRequestPost req env w).1 =
        errResp 500 msgInternal (corsAllowOrigin req.headers.origin)) ∧
    (∀ (req : Req) (env : Env) (w : World) (b : ContactBody) (data : KVData),
      req.body = some b → env.contactSubmissions = some data →
      w.kvGetFails = false → w.rlPutFails = true →
      jsGe (parseIntJS (jsOrS
        (data (rlKey (clientIPOf req.headers) w.nowMs w.tzOffsetMs)) "0")) MAX_REQUESTS
        = false →
      jsFalsy b.turnstileResponse = false →
      jsTruthyS env.turnstileSecretKey = true → w.turnstileResult = some true →
      validateFields (jvalTrim b.name) (jvalTrim b.email) (jvalTrim b.message)
        (corsAllowOrigin req.headers.origin) = none →
      (onRequestPost req env w).1 =
        errResp 500 msgInternal (corsAllowOrigin req.headers.origin)) ∧
    (∀ (req : Req) (env : Env) (w : World) (b : ContactBody),
      req.body = some b → env.contactSubmissions = none →
      jsFalsy b.turnstileResponse = false →
      jsTruthyS env.turnstileSecretKey = true → w.turnstileResult = some true →
      validateFields (jvalTrim b.name) (jvalTrim b.email) (jvalTrim b.message)
        (corsAllowOrigin req.headers.origin) = none →
      (onRequestPost req env w).1.status = 200) := by
  refine ⟨fun ip nowMs offMs gF pF => rfl, ?_, ?_, ?_⟩
  · intro req env w b data hb henv hgf htok hsec hts hval
    obtain ⟨hdr, body⟩ := req
    simp only at hb hval ⊢
    subst hb
    have hvp := verifyCaptcha_pass env w b.turnstileResponse hdr.cfConnectingIP
      (corsAllowOrigin hdr.origin) hsec hts
    simp only [onRequestPost, handleWithBody, htok, Bool.false_eq_true, if_false, hvp, hval,
      henv, hgf, checkRateLimit_getFails]
  · intro req env w b data hb henv hgf hpf hlt htok hsec hts hval
    obtain ⟨hdr, body⟩ := req
    simp only at hb hval hlt ⊢
    subst hb
    have hvp := verifyCaptcha_pass env w b.turnstileResponse hdr.cfConnectingIP
      (corsAllowOrigin hdr.origin) hsec hts
    simp only [onRequestPost, handleWithBody, htok, Bool.false_eq_true, if_false, hvp, hval,
      henv, hgf, hpf, checkRateLimit_putFails data (clientIPOf hdr) w.nowMs w.tzOffsetMs hlt]
  · intro req env w b hb henv htok hsec hts hval
    obtain ⟨hdr, body⟩ := req
    simp only at hb hval ⊢
    subst hb
    have hvp := verifyCaptcha_pass env w b.turnstileResponse hdr.cfConnectingIP
      (corsAllowOrigin hdr.origin) hsec hts
    simp only [onRequestPost, handleWithBody, htok, Bool.false_eq_true, if_false, hvp, hval,
      henv, checkRateLimit_noBinding]
    simp [resp200]

/-- Witness for `rate_limit_fail_open_amended`: the four behaviours at
concrete requests, including a rejecting counter write-back at a
stored count of 2. -/
theorem rate_limit_fail_open_amended_witness :
    checkRateLimit none "1.2.3.4" 0 0 false false = (.ok ⟨true, some 5⟩, []) ∧
    (onRequestPost
        ⟨⟨none, some "1.2.3.4", none⟩,
         some ⟨.str "Ada", .str "ada@example.com", .str "Hi", .str "tok"⟩⟩
        ⟨some (fun _ => none), some "sek", none⟩
        ⟨0, 0, 0, "u-1", some true, true, false, false⟩).1 =
      errResp 500 msgInternal (corsAllowOrigin none) ∧
    (onRequestPost
        ⟨⟨none, some "1.2.3.4", none⟩,
         some ⟨.str "Ada", .str "ada@example.com", .str "Hi", .str "tok"⟩⟩
        ⟨some (fun _ => some "2"), some "sek", none⟩
        ⟨0, 0, 0, "u-1", some true, false, true, false⟩).1 =
      errResp 500 msgInternal (corsAllowOrigin none) ∧
    (onRequestPost
        ⟨⟨none, some "1.2.3.4", none⟩,
         some ⟨.str "Ada", .str "ada@example.com", .str "Hi", .str "tok"⟩⟩
        ⟨none, some "sek", none⟩ {}).1.status = 200 :=
  ⟨rate_limit_fail_open_amended.1 "1.2.3.4" 0 0 false false,
   rate_limit_fail_open_amended.2.1 _ _ _
     ⟨.str "Ada", .str "ada@example.com", .str "Hi", .str "tok"⟩ (fun _ => none)
     rfl rfl rfl (by decide) (by decide) rfl (by decide),
   rate_limit_fail_open_amended.2.2.1 _ _ _
     ⟨.str "Ada", .str "ada@example.com", .str "Hi", .str "tok"⟩ (fun _ => some "2")
     rfl rfl rfl rfl (by decide) (by decide) (by decide) rfl (by decide),
   rate_limit_fail_open_amended.2.2.2 _ _ _
     ⟨.str "Ada", .str "ada@example.com", .str "Hi", .str "tok"⟩
     rfl rfl (by decide) (by decide) rfl (by decide)⟩

/-- C7 counterexample: with no submission-store binding, an accepted
request is answered 200 although nothing is durably written — the
handler does not report an internal error for this unavailable store. -/
theorem storage_unavailable_counterexample :
    (onRequestPost
        ⟨⟨none, some "5.6.7.8", none⟩,
         some ⟨.str "Bea", .str "bea@example.org", .str "Hello", .str "tok2"⟩⟩
        ⟨none, some "sek", none⟩
        ⟨0, 0, 0, "u-2", some true, false, false, false⟩).1.status = 200 ∧
    ((onRequestPost
        ⟨⟨none, some "5.6.7.8", none⟩,
         some ⟨.str "Bea", .str "bea@example.org", .str "Hello", .str "tok2"⟩⟩
        ⟨none, some "sek", none⟩
        ⟨0, 0, 0, "u-2", some true, false, false, false⟩).2.all
      fun e => !Eff.isContactPut e) = true := by decide

/-- C7 (amended): when a submission-store binding is present, a failed
submission write is answered 500, and a 200 response implies a
submission write occurred; when no binding is present the handler logs
the submission and answers 200 without any write. -/
theorem storage_failure_amended (req : Req) (env : Env) (w : World) (b : ContactBody)
    (data : KVData) (hb : req.body = some b)
    (henv : env.contactSubmissions = some data) :
    (w.subPutFails = true →
      jsFalsy b.turnstileResponse = false →
      jsTruthyS env.turnstileSecretKey = true → w.turnstileResult = some true →
      validateFields (jvalTrim b.name) (jvalTrim b.email) (jvalTrim b.message)
        (corsAllowOrigin req.headers.origin) = none →
      ∀ rl tr2,
        checkRateLimit (some data) (clientIPOf req.headers) w.nowMs w.tzOffsetMs
          w.kvGetFails w.rlPutFails = (.ok rl, tr2) →
        rl.allowed = true →
        (onRequestPost req env w).1 =
          errResp 500 msgInternal (corsAllowOrigin req.headers.origin)) ∧
    ((onRequestPost req env w).1.status = 200 →
      ∃ key rec, Eff.putContact key rec ∈ (onRequestPost req env w).2) := by
  obtain ⟨hdr, body⟩ := req
  simp only at hb henv ⊢
  subst hb
  constructor
  · intro hsp htok hsec hts hval rl tr2 hcr hall
    have hvp := verifyCaptcha_pass env w b.turnstileResponse hdr.cfConnectingIP
      (corsAllowOrigin hdr.origin) hsec hts
    simp only [onRequestPost, handleWithBody, htok, Bool.false_eq_true, if_false, hvp, hval,
      henv, hcr, hall, Bool.not_true, hsp, if_true]
  · intro h200
    simp only [onRequestPost] at h200 ⊢
    obtain ⟨-, -, tr, tr2, rl, -, -, -, -, htrace⟩ :=
      handle_success_inv hdr env w b data henv h200
    exact ⟨contactKey (toISOString w.storeNowMs) w.uuid,
      ⟨jvalStr (jvalTrim b.name), jvalStr (jvalTrim b.email),
       jvalStr (jvalTrim b.message), toISOString w.storeNowMs⟩,
      by rw [htrace]; exact List.mem_append_right _ (List.mem_singleton.mpr rfl)⟩

/-- Witness for `storage_failure_amended`: a failed submission write on
a present binding yields a 500, and a successful run's 200 comes with a
submission write in the trace. -/
theorem storage_failure_amended_witness :
    (onRequestPost
        ⟨⟨none, some "5.6.7.8", none⟩,
         some ⟨.str "Bea", .str "bea@example.org", .str "Hello", .str "tok2"⟩⟩
        ⟨some (fun _ => none), some "sek", none⟩
        ⟨0, 0, 0, "u-2", some true, false, false, true⟩).1 =
      errResp 500 msgInternal (corsAllowOrigin none) ∧
    ∃ key rec,
      Eff.putContact key rec ∈
        (onRequestPost
          ⟨⟨none, some "5.6.7.8", none⟩,
           some ⟨.str "Bea", .str "bea@example.org", .str "Hello", .str "tok2"⟩⟩
          ⟨some (fun _ => none), some "sek", none⟩
          ⟨0, 0, 0, "u-2", some true, false, false, false⟩).2 :=
  ⟨(storage_failure_amended _ _ _
      ⟨.str "Bea", .str "bea@example.org", .str "Hello", .str "tok2"⟩ (fun _ => none)
      rfl rfl).1 rfl (by decide) (by decide) rfl (by decide)
      ⟨true, some 4⟩ [.kvGet (rlKey "5.6.7.8" 0 0), .kvPut (rlKey "5.6.7.8" 0 0) "1" 3600]
      rfl rfl,
   (storage_failure_amended _ _ _
      ⟨.str "Bea", .str "bea@example.org", .str "Hello", .str "tok2"⟩ (fun _ => none)
      rfl rfl).2 (by decide)⟩

/-- C8 counterexample: with no submission-store binding the handler
answers 200 with zero submission-store writes, so not every 200
produces exactly one write. -/
theorem success_write_shape_counterexample :
    (onRequestPost
        ⟨⟨none, some "7.8.9.1", none⟩,
         some ⟨.str "Cal", .str "cal@example.net", .str "Yo", .str "tok3"⟩⟩
        ⟨none, none, some "true"⟩ {}).1.status = 200 ∧
    (onRequestPost
        ⟨⟨none, some "7.8.9.1", none⟩,
         some ⟨.str "Cal", .str "cal@example.net", .str "Yo", .str "tok3"⟩⟩
        ⟨none, none, some "true"⟩ {}).2.filter Eff.isContactPut = [] := by decide

/-- C8 (amended): when a submission-store binding is present, every 200
response produces exactly one submission-store write; its key is
`contact_<ISO timestamp>_<uuid>`, its value holds the trimmed `name`,
`email` and `message` from the request, and its `submittedAt` equals
the timestamp component embedded in the key. -/
theorem success_write_shape_amended (req : Req) (env : Env) (w : World) (b : ContactBody)
    (data : KVData) (hb : req.body = some b)
    (henv : env.contactSubmissions = some data)
    (h200 : (onRequestPost req env w).1.status = 200) :
    ∃ s1 s2 s3,
      b.name = .str s1 ∧ b.email = .str s2 ∧ b.message = .str s3 ∧
      (onRequestPost req env w).2.filter Eff.isContactPut =
        [.putContact (contactKey (toISOString w.storeNowMs) w.uuid)
          ⟨jsTrim s1, jsTrim s2, jsTrim s3, toISOString w.storeNowMs⟩] ∧
      contactKey (toISOString w.storeNowMs) w.uuid =
        "contact_" ++ toISOString w.storeNowMs ++ "_" ++ w.uuid := by
  obtain ⟨hdr, body⟩ := req
  simp only at hb
  subst hb
  simp only [onRequestPost] at h200 ⊢
  obtain ⟨-, -, tr, tr2, rl, hvc, hv, hcr, -, htrace⟩ :=
    handle_success_inv hdr env w b data henv h200
  obtain ⟨⟨t1, ht1⟩, ⟨t2, ht2⟩, ⟨t3, ht3⟩⟩ := validateFields_none_strings _ _ _ _ hv
  obtain ⟨s1, hs1, hts1⟩ := jvalTrim_str_inv _ _ ht1
  obtain ⟨s2, hs2, hts2⟩ := jvalTrim_str_inv _ _ ht2
  obtain ⟨s3, hs3, hts3⟩ := jvalTrim_str_inv _ _ ht3
  have hf1 : tr.filter Eff.isContactPut = [] := by
    rw [List.filter_eq_nil_iff]
    intro a ha
    obtain ⟨sec, rfl⟩ := verifyCaptcha_trace_fetch env w b.turnstileResponse
      hdr.cfConnectingIP (corsAllowOrigin hdr.origin) a (by rw [hvc]; exact ha)
    simp [Eff.isContactPut]
  have hf2 : tr2.filter Eff.isContactPut = [] := by
    rw [List.filter_eq_nil_iff]
    intro a ha
    have ht := checkRateLimit_trace_counter (some data) (clientIPOf hdr) w.nowMs w.tzOffsetMs
      w.kvGetFails w.rlPutFails a (by rw [hcr]; exact ha)
    simp [(touchesCounter_cases a ht).1]
  refine ⟨s1, s2, s3, hs1, hs2, hs3, ?_, rfl⟩
  rw [htrace, List.filter_append, List.filter_append, hf1, hf2]
  simp [hs1, hs2, hs3, jvalTrim, jvalStr, Eff.isContactPut]

/-- Witness for `success_write_shape_amended`: a concrete accepted
request stores exactly one record with trimmed fields. -/
theorem success_write_shape_amended_witness :
    (onRequestPost
        ⟨⟨none, some "2.3.4.5", none⟩,
         some ⟨.str " Dee ", .str "dee@example.com", .str "Hej", .str "tok4"⟩⟩
        ⟨some (fun _ => none), some "sek", none⟩
        ⟨0, 0, 0, "u-4", some true, false, false, false⟩).2.filter Eff.isContactPut =
      [.putContact (contactKey (toISOString 0) "u-4")
        ⟨"Dee", "dee@example.com", "Hej", toISOString 0⟩] := by
  obtain ⟨s1, s2, s3, hs1, hs2, hs3, hfil, -⟩ :=
    success_write_shape_amended
      ⟨⟨none, some "2.3.4.5", none⟩,
       some ⟨.str " Dee ", .str "dee@example.com", .str "Hej", .str "tok4"⟩⟩
      ⟨some (fun _ => none), some "sek", none⟩
      ⟨0, 0, 0, "u-4", some true, false, false, false⟩
      ⟨.str " Dee ", .str "dee@example.com", .str "Hej", .str "tok4"⟩
      (fun _ => none) rfl rfl (by decide)
  injection hs1 with hs1'
  injection hs2 with hs2'
  injection hs3 with hs3'
  subst hs1'
  subst hs2'
  subst hs3'
  rw [hfil]
  decide

/-- C9 counterexample: a falsy non-string field — the number 0 — is
reported with the missing-field error, not with the distinct
wrong-type error. -/
theorem type_error_counterexample :
    validateFields (jvalTrim (.num 0)) (jvalTrim (.str "ada@example.com"))
        (jvalTrim (.str "Hi")) DEFAULT_ORIGIN =
      some (errResp 400 msgRequired DEFAULT_ORIGIN) ∧
    msgRequired ≠ msgTypes ∧
    (onRequestPost
        ⟨⟨none, some "1.2.3.4", none⟩,
         some ⟨.num 0, .str "ada@example.com", .str "Hi", .str "tok"⟩⟩
        ⟨none, some "sek", none⟩ {}).1.error = some msgRequired := by decide

/-- C9 (amended): a *truthy* non-string value in any of the three
fields is answered with the wrong-type error, which is distinct from
the missing-field error; falsy non-string values (such as the number 0)
fall into the missing-field branch instead. -/
theorem type_error_amended (name email message : JVal) (cors : String)
    (hn : jsFalsy name = false) (he : jsFalsy email = false) (hm : jsFalsy message = false)
    (hns : jsIsString name = false ∨ jsIsString email = false ∨ jsIsString message = false) :
    validateFields name email message cors = some (errResp 400 msgTypes cors) ∧
    msgTypes ≠ msgRequired := by
  refine ⟨?_, by decide⟩
  unfold validateFields
  rcases hns with h | h | h <;> simp [hn, he, hm, h]

/-- Witness for `type_error_amended`: a submitted number 7 in the name
field is a type failure. -/
theorem type_error_amended_witness :
    validateFields (.num 7) (.str "ada@example.com") (.str "Hi") DEFAULT_ORIGIN =
      some (errResp 400 msgTypes DEFAULT_ORIGIN) ∧
    msgTypes ≠ msgRequired :=
  type_error_amended (.num 7) (.str "ada@example.com") (.str "Hi") DEFAULT_ORIGIN
    rfl rfl rfl (Or.inl rfl)

/-- Every verification-service call a request issues carries exactly
the `CF-Connecting-IP` header value as `remoteip`. -/
theorem handle_trace_fetch_remoteip (hdr : Headers) (env : Env) (w : World) (b : ContactBody) :
    ∀ sec tok r, Eff.fetchTurnstile sec tok r ∈ (handleWithBody hdr env w b).2 →
      r = hdr.cfConnectingIP := by
  intro sec tok r hmem
  cases htok : jsFalsy b.turnstileResponse with
  | true =>
    simp [handleWithBody, htok] at hmem
  | false =>
    rcases hvc : verifyCaptcha env w b.turnstileResponse hdr.cfConnectingIP
        (corsAllowOrigin hdr.origin) with ⟨vr, tr⟩
    have hfetch : Eff.fetchTurnstile sec tok r ∈ tr → r = hdr.cfConnectingIP := by
      intro h
      obtain ⟨sec', heq⟩ := verifyCaptcha_trace_fetch env w b.turnstileResponse
        hdr.cfConnectingIP (corsAllowOrigin hdr.origin) _ (by rw [hvc]; exact h)
      simp only [Eff.fetchTurnstile.injEq] at heq
      exact heq.2.2
    cases vr with
    | some r' =>
      simp only [handleWithBody, htok, Bool.false_eq_true, if_false, hvc] at hmem
      exact hfetch hmem
    | none =>
      rcases hv : validateFields (jvalTrim b.name) (jvalTrim b.email) (jvalTrim b.message)
          (corsAllowOrigin hdr.origin) with _ | r'
      · rcases hsub : env.contactSubmissions with _ | d
        · simp only [handleWithBody, htok, Bool.false_eq_true, if_false, hvc, hv, hsub,
            checkRateLimit_noBinding, Bool.not_true, List.append_nil] at hmem
          exact hfetch hmem
        · rcases hcr : checkRateLimit (some d) (clientIPOf hdr) w.nowMs
              w.tzOffsetMs w.kvGetFails w.rlPutFails with ⟨res, tr2⟩
          have hrl : Eff.fetchTurnstile sec tok r ∈ tr2 → False := by
            intro h
            have ht := checkRateLimit_trace_counter (some d) (clientIPOf hdr)
              w.nowMs w.tzOffsetMs w.kvGetFails w.rlPutFails _ (by rw [hcr]; exact h)
            exact absurd rfl ((touchesCounter_cases _ ht).2 sec tok r)
          cases res with
          | error u =>
            simp only [handleWithBody, htok, Bool.false_eq_true, if_false, hvc, hv, hsub,
              hcr] at hmem
            rcases List.mem_append.mp hmem with h | h
            · exact hfetch h
            · exact (hrl h).elim
          | ok rl =>
            cases hall : rl.allowed with
            | false =>
              simp only [handleWithBody, htok, Bool.false_eq_true, if_false, hvc, hv, hsub, hcr,
                hall, Bool.not_false, if_true] at hmem
              rcases List.mem_append.mp hmem with h | h
              · exact hfetch h
              · exact (hrl h).elim
            | true =>
              cases hsp : w.subPutFails with
              | true =>
                simp only [handleWithBody, htok, Bool.false_eq_true, if_false, hvc, hv, hsub,
                  hcr, hall, Bool.not_true, hsp, if_true] at hmem
                rcases List.mem_append.mp hmem with h | h
                · exact hfetch h
                · exact (hrl h).elim
              | false =>
                simp only [handleWithBody, htok, Bool.false_eq_true, if_false, hvc, hv, hsub,
                  hcr, hall, Bool.not_true, hsp] at hmem
                rcases List.mem_append.mp hmem with h | h
                · rcases List.mem_append.mp h with h' | h'
                  · exact hfetch h'
                  · exact (hrl h').elim
                · simp at h
      · simp only [handleWithBody, htok, Bool.false_eq_true, if_false, hvc, hv] at hmem
        exact hfetch hmem

/-- C10: the `remoteip` sent to the verification service is exactly the
`CF-Connecting-IP` header (absent means `null`), while the rate-limit
and logging identity falls back to the first `X-Forwarded-For` entry
and then to `"unknown"` — a request identified only via
`X-Forwarded-For` is verified with no IP but rate-limited under the
forwarded IP. -/
theorem remoteip_vs_clientip (req : Req) (env : Env) (w : World) :
    (∀ sec tok r, Eff.fetchTurnstile sec tok r ∈ (onRequestPost req env w).2 →
      r = req.headers.cfConnectingIP) ∧
    (∀ s, req.headers.cfConnectingIP = none → req.headers.xForwardedFor = some s →
      splitFirst s ≠ "" → clientIPOf req.headers = splitFirst s) ∧
    (req.headers.cfConnectingIP = none → req.headers.xForwardedFor = none →
      clientIPOf req.headers = "unknown") := by
  refine ⟨?_, ?_, ?_⟩
  · intro sec tok r hmem
    obtain ⟨hdr, body⟩ := req
    cases body with
    | none => simp [onRequestPost] at hmem
    | some b => exact handle_trace_fetch_remoteip hdr env w b sec tok r hmem
  · intro s h1 h2 hne
    simp [clientIPOf, h1, h2, jsOrS, hne]
  · intro h1 h2
    simp [clientIPOf, h1, h2, jsOrS]

/-- Witness for `remoteip_vs_clientip`: with no `CF-Connecting-IP`, the
client identity is the first `X-Forwarded-For` entry while the
verification call carries no IP. -/
theorem remoteip_vs_clientip_witness :
    clientIPOf ⟨none, none, some "9.9.9.9, 8.8.8.8"⟩ = splitFirst "9.9.9.9, 8.8.8.8" ∧
    (none : Option String) =
      (Req.mk ⟨none, none, some "9.9.9.9, 8.8.8.8"⟩
        (some ⟨.str "Ada", .str "ada@example.com", .str "Hi", .str "tok"⟩)).headers.cfConnectingIP :=
  ⟨(remoteip_vs_clientip
      ⟨⟨none, none, some "9.9.9.9, 8.8.8.8"⟩,
       some ⟨.str "Ada", .str "ada@example.com", .str "Hi", .str "tok"⟩⟩
      ⟨some (fun _ => none), some "sek", none⟩ {}).2.1 "9.9.9.9, 8.8.8.8" rfl rfl (by decide),
   (remoteip_vs_clientip
      ⟨⟨none, none, some "9.9.9.9, 8.8.8.8"⟩,
       some ⟨.str "Ada", .str "ada@example.com", .str "Hi", .str "tok"⟩⟩
      ⟨some (fun _ => none), some "sek", none⟩ {}).1 "sek" (.str "tok") none (by decide)⟩

/-- Witness for `hour_bucket_amended` at a whole-hour offset and at the
boundary of the third hour. -/
theorem hour_bucket_amended_witness :
    hourTimestamp 123456 (3600000 * 1) = 3600000 * ((123456 : Int) / 3600000) ∧
    hourTimestamp (3600000 * 2) 0 = 3600000 * 2 ∧
    hourTimestamp (3600000 * 2 + 1) 0 = 3600000 * 2 ∧
    hourTimestamp (3600000 * 2 - 1) 0 = 3600000 * (2 : Int) - 3600000 :=
  ⟨(hour_bucket_amended 123456 1 2).1, (hour_bucket_amended 123456 1 2).2.1,
   (hour_bucket_amended 123456 1 2).2.2.1,
   (hour_bucket_amended 123456 1 2).2.2.2 (by decide)⟩

end Contact
